import Mathlib

/-!
Shallow embedding of `src/inventory.rs` (the Steam inventory retrieval core).

The external Steamworks subsystem is reached only through FFI calls
(`SteamAPI_ISteamInventory_*`).  We model one run of each public operation as a
pure function of an *oracle* describing the subsystem's responses during that
run, and we return alongside the result the trace of subsystem calls issued,
so that claims about which external calls happen (destroy, poll, sleep, fill)
become statements about the trace.
-/

/-- `EResult` codes are a C enum; we keep the numeric value. `k_EResultOK = 1`. -/
def k_EResultOK : Nat := 1

/-- `k_uAPICallInvalid` is the reserved invalid call token (value 0). -/
def k_uAPICallInvalid : Nat := 0

/-- `CALLBACK_BASE_ID` from `inventory.rs` line 6. -/
def CALLBACK_BASE_ID : Int := 1300

/-- Decidable equality for `Except`, used to evaluate run results on concrete
oracles. -/
instance exceptDecEq {ε α : Type} [DecidableEq ε] [DecidableEq α] :
    DecidableEq (Except ε α)
  | .error a, .error b =>
    if h : a = b then .isTrue (h ▸ rfl)
    else .isFalse (fun hc => h (Except.error.inj hc))
  | .error _, .ok _ => .isFalse (fun hc => Except.noConfusion hc)
  | .ok _, .error _ => .isFalse (fun hc => Except.noConfusion hc)
  | .ok a, .ok b =>
    if h : a = b then .isTrue (h ▸ rfl)
    else .isFalse (fun hc => h (Except.ok.inj hc))

/-- Raw record as the fill call returns it: `sys::SteamItemDetails_t`
with fields `m_itemId : u64`, `m_iDefinition : i32`, `m_unQuantity : u16`,
`m_unFlags : u16`. -/
structure RawItemDetails where
  m_itemId : Nat
  m_iDefinition : Int
  m_unQuantity : Nat
  m_unFlags : Nat
deriving DecidableEq, Repr

/-- The all-zero raw record produced by `std::mem::zeroed()` when the buffer is
allocated (`vec![std::mem::zeroed(); items_count as usize]`). -/
def zeroRaw : RawItemDetails := ⟨0, 0, 0, 0⟩

/-- `SteamItemInstanceID(pub u64)` from `inventory.rs`. -/
structure SteamItemInstanceID where
  val : Nat
deriving DecidableEq, Repr

/-- `SteamItemDef(pub i32)` from `inventory.rs`. -/
structure SteamItemDef where
  val : Int
deriving DecidableEq, Repr

/-- `SteamItemDetails` from `inventory.rs` lines 188-194: the decoded record. -/
structure SteamItemDetails where
  item_id : SteamItemInstanceID
  definition : SteamItemDef
  quantity : Nat
  flags : Nat
deriving DecidableEq, Repr

/-- `InventoryError` from `inventory.rs` lines 175-185. -/
inductive InventoryError where
  | OperationFailed
  | GetResultItemsFailed
  | InvalidInput
  | Timeout
deriving DecidableEq, Repr

/-- One subsystem (FFI) call issued by the engine during a run.  `sleep` is the
`std::thread::sleep` between poll attempts; it is recorded so claims about the
backoff are statements about the trace. -/
inductive SubCall where
  | getAllItemsCall
  | getResultStatus (handle : Nat)
  | sleep (ms : Nat)
  | getResultItems (handle : Nat) (nullDest : Bool)
  | destroyResult (handle : Nat)
  | consumeCall (itemId : Nat) (quantity : Nat)
  | startPurchaseCall (defs : List Int) (quantities : List Nat) (count : Nat)
deriving DecidableEq, Repr

/-- Subsystem behaviour during one `get_result_items` run (the two fill
calls).  `phase2Records` is what the subsystem writes into the caller's buffer
during phase 2 (at most the buffer capacity in any real run), and
`phase2OutCount` is the value it stores into the in/out `items_count` during
phase 2 — the Rust code never reads `items_count` again after phase 2. -/
structure FetchOracle where
  phase1Ok : Bool
  phase1Count : Nat
  phase2Ok : Bool
  phase2Records : List RawItemDetails
  phase2OutCount : Nat
deriving DecidableEq, Repr

/-- The field-by-field decode applied per record in `inventory.rs`
lines 78-83. -/
def decodeItem (d : RawItemDetails) : SteamItemDetails :=
  { item_id := ⟨d.m_itemId⟩
    definition := ⟨d.m_iDefinition⟩
    quantity := d.m_unQuantity
    flags := d.m_unFlags }

/-- `get_result_items` (`inventory.rs` lines 53-89) with its call trace.
Phase 1 passes a null destination to learn `items_count`; on success a buffer
of exactly `phase1Count` zeroed records is allocated and phase 2 fills it.
After phase 2 the code maps `decodeItem` over the *whole* buffer
(`items_array.into_iter().map(..)`) — the buffer content is the records the
subsystem wrote followed by the still-zeroed tail slots. -/
def get_result_items_tr (o : FetchOracle) (handle : Nat) :
    Except InventoryError (List SteamItemDetails) × List SubCall :=
  if o.phase1Ok then
    let items_array : List RawItemDetails := List.replicate o.phase1Count zeroRaw
    let filled : List RawItemDetails :=
      o.phase2Records ++ items_array.drop o.phase2Records.length
    if o.phase2Ok then
      (.ok (filled.map decodeItem),
        [.getResultItems handle true, .getResultItems handle false])
    else
      (.error .GetResultItemsFailed,
        [.getResultItems handle true, .getResultItems handle false])
  else
    (.error .GetResultItemsFailed, [.getResultItems handle true])

/-- Result component of `get_result_items`. -/
def get_result_items (o : FetchOracle) (handle : Nat) :
    Except InventoryError (List SteamItemDetails) :=
  (get_result_items_tr o handle).1

/-- Subsystem behaviour during one `get_all_items` run.  `status i` is what
`SteamAPI_ISteamInventory_GetResultStatus` returns on the `i`-th poll attempt
(successive calls against live subsystem state may differ, so the oracle is a
function of the attempt index). -/
structure InventoryOracle where
  startOk : Bool
  startHandle : Nat
  status : Nat → Nat
  fetch : FetchOracle

/-- The poll/backoff loop of `wait_for_result_and_get_items`
(`inventory.rs` lines 40-49), recursing on the remaining attempts with `i` the
index of the current attempt.  On a `k_EResultOK` status it proceeds directly
to `get_result_items`; otherwise it sleeps 100 ms and retries. -/
def waitLoop (o : InventoryOracle) (handle : Nat) :
    Nat → Nat → Except InventoryError (List SteamItemDetails) × List SubCall
  | 0, _ => (.error .Timeout, [])
  | fuel + 1, i =>
    if o.status i = k_EResultOK then
      let r := get_result_items_tr o.fetch handle
      (r.1, .getResultStatus handle :: r.2)
    else
      let r := waitLoop o handle fuel (i + 1)
      (r.1, .getResultStatus handle :: .sleep 100 :: r.2)

/-- `wait_for_result_and_get_items` (`inventory.rs` lines 33-51):
`MAX_ATTEMPTS = 100`, `WAIT_DURATION = 100 ms`. -/
def wait_for_result_and_get_items (o : InventoryOracle) (handle : Nat) :
    Except InventoryError (List SteamItemDetails) × List SubCall :=
  waitLoop o handle 100 0

/-- `get_all_items` (`inventory.rs` lines 15-20): request a handle, wait and
fetch, and destroy the handle.  The two `?` operators return early on error,
so `destroy_result` runs only when `wait_for_result_and_get_items`
succeeded. -/
def get_all_items (o : InventoryOracle) :
    Except InventoryError (List SteamItemDetails) × List SubCall :=
  if o.startOk then
    let w := wait_for_result_and_get_items o o.startHandle
    match w.1 with
    | .ok items =>
      (.ok items, .getAllItemsCall :: w.2 ++ [.destroyResult o.startHandle])
    | .error e => (.error e, .getAllItemsCall :: w.2)
  else
    (.error .OperationFailed, [.getAllItemsCall])

/-- Subsystem behaviour during one `consume_item` run. -/
structure ConsumeOracle where
  consumeOk : Bool
  consumeHandle : Nat
deriving DecidableEq, Repr

/-- `consume_item` (`inventory.rs` lines 97-125): calls
`SteamAPI_ISteamInventory_ConsumeItem` directly with the given identifier and
quantity — no caller-side validation — then destroys the yielded handle on
success; on subsystem failure it returns `OperationFailed`. -/
def consume_item (o : ConsumeOracle) (item_id : Nat) (quantity : Nat) :
    Except InventoryError Unit × List SubCall :=
  if o.consumeOk then
    (.ok (), [.consumeCall item_id quantity, .destroyResult o.consumeHandle])
  else
    (.error .OperationFailed, [.consumeCall item_id quantity])

/-- Modelled from the spec: the crate's `SteamError` type is declared outside
`src/` (only `InvalidParameter`, `IOFailure` and the `From<EResult>` mapping
are used here).  Per the spec, subsystem result codes map one-to-one to typed
errors, which `other` represents. -/
inductive SteamError where
  | InvalidParameter
  | IOFailure
  | other (code : Nat)
deriving DecidableEq, Repr

/-- Modelled from the spec: `SteamError::from(EResult)` — the one-to-one map
from a non-OK subsystem result code to its typed error. -/
def steamErrorFrom (code : Nat) : SteamError := .other code

/-- `StartPurchaseResult` (`inventory.rs` lines 211-215). -/
structure StartPurchaseResult where
  order_id : Nat
  trans_id : Nat
deriving DecidableEq, Repr

/-- `sys::SteamInventoryStartPurchaseResult_t`: the raw response handed to the
registered completion handler. -/
structure PurchaseResponse where
  m_result : Nat
  m_ulOrderID : Nat
  m_ulTransID : Nat
deriving DecidableEq, Repr

/-- The completion closure registered by `start_purchase`
(`inventory.rs` lines 156-168): the outcome the callback `cb` receives when
the handler fires with raw response `v` and I/O-failure flag `io_error`. -/
def purchaseHandler (v : PurchaseResponse) (io_error : Bool) :
    Except SteamError StartPurchaseResult :=
  if io_error then
    .error .IOFailure
  else if v.m_result = k_EResultOK then
    .ok { order_id := v.m_ulOrderID, trans_id := v.m_ulTransID }
  else
    .error (steamErrorFrom v.m_result)

/-- What `start_purchase` does with the callback `cb`: either invokes it
synchronously with an outcome, or registers it (composed with
`purchaseHandler`) under a callback identifier via `register_call_result`. -/
inductive PurchaseEvent where
  | syncCallback (r : Except SteamError StartPurchaseResult)
  | registerHandler (callbackId : Int)
deriving DecidableEq, Repr

/-- Subsystem behaviour during one `start_purchase` run: the call token that
`SteamAPI_ISteamInventory_StartPurchase` returns. -/
structure PurchaseOracle where
  apiCall : Nat
deriving DecidableEq, Repr

/-- `start_purchase` (`inventory.rs` lines 127-172).  Empty input: synchronous
`InvalidParameter` callback, no subsystem call.  Otherwise the pairs are
unzipped into parallel arrays and the subsystem call is issued; an invalid
call token gives the synchronous `InvalidParameter` callback, a valid one
registers the completion handler under `CALLBACK_BASE_ID + 1`. -/
def start_purchase (o : PurchaseOracle) (items : List (Int × Nat)) :
    List PurchaseEvent × List SubCall :=
  if items.isEmpty then
    ([.syncCallback (.error .InvalidParameter)], [])
  else
    let item_defs := items.map Prod.fst
    let quantities := items.map Prod.snd
    let calls := [SubCall.startPurchaseCall item_defs quantities items.length]
    if o.apiCall = k_uAPICallInvalid then
      ([.syncCallback (.error .InvalidParameter)], calls)
    else
      ([.registerHandler (CALLBACK_BASE_ID + 1)], calls)

/-- Modelled from the spec: the Handle Registry (pending-handle set with
release-on-teardown) is part of this repository but not under `src/` — the
`Inventory` struct (lines 8-11) only carries the shared `Inner` that owns it.
`pending` is the set of tracked handles; `destroyed` records the
destroy-handle subsystem calls issued so far. -/
structure HandleRegistry where
  pending : List Nat
  destroyed : List Nat
deriving DecidableEq, Repr

/-- Modelled from the spec: `track(handle)` records a just-obtained valid
handle as pending. -/
def HandleRegistry.track (r : HandleRegistry) (h : Nat) : HandleRegistry :=
  if h ∈ r.pending then r else { r with pending := h :: r.pending }

/-- Modelled from the spec: `release(handle)` issues the subsystem destroy
call and removes the handle from the pending set; on an untracked handle it is
a no-op, so the destroy call is never issued twice for the same handle. -/
def HandleRegistry.release (r : HandleRegistry) (h : Nat) : HandleRegistry :=
  if h ∈ r.pending then
    { pending := r.pending.erase h, destroyed := r.destroyed ++ [h] }
  else r

/-- Modelled from the spec: `release_all()`, run at engine teardown — releases
every remaining tracked handle exactly once and empties the set. -/
def HandleRegistry.release_all (r : HandleRegistry) : HandleRegistry :=
  { pending := [], destroyed := r.destroyed ++ r.pending }

/-- Number of destroy-handle calls for `h` in a trace. -/
def destroyCount (tr : List SubCall) (h : Nat) : Nat :=
  (tr.filter (fun e => e = SubCall.destroyResult h)).length

/-- Number of poll (`GetResultStatus`) calls in a trace. -/
def pollCount (tr : List SubCall) : Nat :=
  (tr.filter (fun e => match e with | .getResultStatus _ => true | _ => false)).length

/-- Number of fill (`GetResultItems`) calls in a trace. -/
def fetchCount (tr : List SubCall) : Nat :=
  (tr.filter (fun e => match e with | .getResultItems _ _ => true | _ => false)).length

/-- Trace of `n` poll attempts each followed by the fixed 100 ms sleep. -/
def pollSleeps (handle : Nat) : Nat → List SubCall
  | 0 => []
  | n + 1 => .getResultStatus handle :: .sleep 100 :: pollSleeps handle n

/-- Is the purchase event a synchronous callback invocation? -/
def isSyncCb : PurchaseEvent → Bool
  | .syncCallback _ => true
  | .registerHandler _ => false

/-- Is the purchase event a handler registration? -/
def isRegisterEvent : PurchaseEvent → Bool
  | .syncCallback _ => false
  | .registerHandler _ => true

/-- Concrete run: phase 1 reports 2 records, phase 2 writes only one record
and reports a count of 1 (the subsystem mutated state between the calls). -/
def fetchMismatchRun : FetchOracle :=
  { phase1Ok := true, phase1Count := 2, phase2Ok := true
    phase2Records := [⟨100, 5, 2, 0⟩], phase2OutCount := 1 }

/-- Concrete run: both fill phases succeed with three records. -/
def fetchThreeRun : FetchOracle :=
  { phase1Ok := true, phase1Count := 3, phase2Ok := true
    phase2Records := [⟨100, 5, 2, 0⟩, ⟨101, 5, 1, 0⟩, ⟨102, 6, 4, 1⟩]
    phase2OutCount := 3 }

/-- Concrete run: handle 7 obtained, status OK at once, but fill phase 1
fails. -/
def leakRun : InventoryOracle :=
  { startOk := true, startHandle := 7, status := fun _ => k_EResultOK
    fetch := { phase1Ok := false, phase1Count := 0, phase2Ok := false
               phase2Records := [], phase2OutCount := 0 } }

/-- Concrete run: handle 7 obtained, status OK at once, one record fetched. -/
def successRun : InventoryOracle :=
  { startOk := true, startHandle := 7, status := fun _ => k_EResultOK
    fetch := { phase1Ok := true, phase1Count := 1, phase2Ok := true
               phase2Records := [⟨100, 5, 2, 0⟩], phase2OutCount := 1 } }

/-- Concrete run: poll attempt 0 reports pending (code 2), attempt 1 reports
OK, then one record is fetched. -/
def twoPollRun : InventoryOracle :=
  { startOk := true, startHandle := 7
    status := fun i => if i = 1 then k_EResultOK else 2
    fetch := { phase1Ok := true, phase1Count := 1, phase2Ok := true
               phase2Records := [⟨100, 5, 2, 0⟩], phase2OutCount := 1 } }

/-! Theorems. -/

/-- Claim C5: `start_purchase` on an empty item list synchronously invokes the
callback exactly once with an `InvalidParameter` error outcome and performs
zero subsystem calls. -/
theorem claim_C5 (o : PurchaseOracle) :
    start_purchase o [] = ([.syncCallback (.error .InvalidParameter)], []) := rfl

/-- Claim C6: when the registered purchase-completion handler fires, the
collaborator's I/O-failure flag yields `IOFailure`; otherwise an OK result
code yields a `StartPurchaseResult` copied from the raw response's order and
transaction fields, and any other result code maps through `steamErrorFrom`
to its typed error. -/
theorem claim_C6 (v : PurchaseResponse) (io_error : Bool) :
    (io_error = true → purchaseHandler v io_error = .error .IOFailure)
  ∧ (io_error = false → v.m_result = k_EResultOK →
      purchaseHandler v io_error = .ok ⟨v.m_ulOrderID, v.m_ulTransID⟩)
  ∧ (io_error = false → v.m_result ≠ k_EResultOK →
      purchaseHandler v io_error = .error (steamErrorFrom v.m_result)) := by
  refine ⟨fun h => ?_, fun h hr => ?_, fun h hr => ?_⟩
  · simp [purchaseHandler, h]
  · simp [purchaseHandler, h, hr]
  · simp [purchaseHandler, h, hr]

/-- Witness for C6: the spec scenario — handler fires with `io_error = false`
and response `{result = OK, order_id = 555, trans_id = 999}`; the callback
outcome is `StartPurchaseResult{555, 999}`. -/
theorem claim_C6_witness :
    purchaseHandler ⟨k_EResultOK, 555, 999⟩ false = .ok ⟨555, 999⟩ :=
  (claim_C6 ⟨k_EResultOK, 555, 999⟩ false).2.1 rfl rfl

/-- Claim C9: `consume_item` validates nothing — for every identifier and
quantity (zero included) the first subsystem call is the consume call, the
result is `Ok(())` (with the yielded handle destroyed) or `OperationFailed`,
and no other error kind is ever returned. -/
theorem claim_C9 (o : ConsumeOracle) (item_id quantity : Nat) :
    ((consume_item o item_id quantity).1 = .ok ()
      ∨ (consume_item o item_id quantity).1 = .error .OperationFailed)
  ∧ (consume_item o item_id quantity).2.head? = some (.consumeCall item_id quantity)
  ∧ (o.consumeOk = true →
      (consume_item o item_id quantity).2 =
        [.consumeCall item_id quantity, .destroyResult o.consumeHandle])
  ∧ (o.consumeOk = false →
      (consume_item o item_id quantity).1 = .error .OperationFailed) := by
  cases h : o.consumeOk <;> simp [consume_item, h]

/-- Witness for C9: consuming quantity 0 of item 9 on a subsystem that
accepts the request issues the consume call then the destroy call. -/
theorem claim_C9_witness :
    (consume_item ⟨true, 5⟩ 9 0).2 = [.consumeCall 9 0, .destroyResult 5] :=
  (claim_C9 ⟨true, 5⟩ 9 0).2.2.1 rfl

/-- Claim C7: a valid query with a phase-1 count of zero is not an error —
provided phase 2 does not report failure, `get_result_items` succeeds with the
empty record list. -/
theorem claim_C7 (o : FetchOracle) (handle : Nat)
    (h1 : o.phase1Ok = true) (hc : o.phase1Count = 0)
    (hle : o.phase2Records.length ≤ o.phase1Count) (h2 : o.phase2Ok = true) :
    get_result_items o handle = .ok [] := by
  have hrec : o.phase2Records = [] := List.eq_nil_of_length_eq_zero (by omega)
  simp [get_result_items, get_result_items_tr, h1, h2, hc, hrec]

/-- Witness for C7: a concrete zero-count run returns the empty list. -/
theorem claim_C7_witness : get_result_items ⟨true, 0, true, [], 0⟩ 7 = .ok [] :=
  claim_C7 ⟨true, 0, true, [], 0⟩ 7 rfl rfl (by decide) rfl

/-- Claim C8: decoding is a pure field-by-field copy and preserves the order
of the raw records the fill call returned — when the subsystem fills the whole
buffer, the result is exactly `decodeItem` mapped over the raw records in
order, and `decodeItem` copies the four fields unchanged. -/
theorem claim_C8 (o : FetchOracle) (handle : Nat)
    (h1 : o.phase1Ok = true) (h2 : o.phase2Ok = true)
    (hfull : o.phase2Records.length = o.phase1Count) :
    get_result_items o handle = .ok (o.phase2Records.map decodeItem)
  ∧ ∀ d : RawItemDetails,
      decodeItem d = { item_id := ⟨d.m_itemId⟩, definition := ⟨d.m_iDefinition⟩,
                       quantity := d.m_unQuantity, flags := d.m_unFlags } := by
  constructor
  · have hdrop :
        (List.replicate o.phase1Count zeroRaw).drop o.phase2Records.length = [] := by
      exact List.drop_eq_nil_of_le (by simp [hfull])
    simp [get_result_items, get_result_items_tr, h1, h2, hdrop]
  · intro d; rfl

/-- Witness for C8: the spec scenario — phase 2 fills the three raw records
`(100,5,2,0), (101,5,1,0), (102,6,4,1)` and the decoded output is the three
matching `SteamItemDetails` in the same order. -/
theorem claim_C8_witness :
    get_result_items fetchThreeRun 7
      = .ok [⟨⟨100⟩, ⟨5⟩, 2, 0⟩, ⟨⟨101⟩, ⟨5⟩, 1, 0⟩, ⟨⟨102⟩, ⟨6⟩, 4, 1⟩] :=
  ((claim_C8 fetchThreeRun 7 rfl rfl rfl).1).trans (by decide)

/-- Claim C10: every `start_purchase` call takes exactly one of three mutually
exclusive paths — synchronous callback on empty input, synchronous callback on
an invalid call token, or a single handler registration — and in every case
the number of synchronous invocations plus registrations is exactly one. -/
theorem claim_C10 (o : PurchaseOracle) (items : List (Int × Nat)) :
    ((start_purchase o items).1.countP isSyncCb)
      + ((start_purchase o items).1.countP isRegisterEvent) = 1
  ∧ (items = [] →
      (start_purchase o items).1 = [.syncCallback (.error .InvalidParameter)])
  ∧ (items ≠ [] → o.apiCall = k_uAPICallInvalid →
      (start_purchase o items).1 = [.syncCallback (.error .InvalidParameter)])
  ∧ (items ≠ [] → o.apiCall ≠ k_uAPICallInvalid →
      (start_purchase o items).1 = [.registerHandler (CALLBACK_BASE_ID + 1)]) := by
  by_cases he : items = [] <;> by_cases ha : o.apiCall = k_uAPICallInvalid <;>
    simp [start_purchase, he, ha, List.isEmpty_iff, List.countP_cons, List.countP_nil,
      isSyncCb, isRegisterEvent]

/-- Witness for C10: the spec scenario input `[(42, 1)]` with a valid call
token takes the registration path exactly once. -/
theorem claim_C10_witness :
    (start_purchase ⟨3⟩ [(42, 1)]).1 = [.registerHandler (CALLBACK_BASE_ID + 1)] :=
  (claim_C10 ⟨3⟩ [(42, 1)]).2.2.2 (by decide) (by decide)

/-- Counterexample for C1: phase 1 reports 2 records, phase 2 writes one
record and reports a count of 1, yet the successful call returns a list of
length 2 — the second entry is the decoded zero-initialised buffer slot, so
entries beyond the phase-2 reported count are decoded. -/
theorem claim_C1_counterexample :
    get_result_items fetchMismatchRun 7
        = .ok [⟨⟨100⟩, ⟨5⟩, 2, 0⟩, ⟨⟨0⟩, ⟨0⟩, 0, 0⟩]
  ∧ fetchMismatchRun.phase2OutCount = 1
  ∧ ([⟨⟨100⟩, ⟨5⟩, 2, 0⟩, ⟨⟨0⟩, ⟨0⟩, 0, 0⟩] : List SteamItemDetails).length
      ≠ fetchMismatchRun.phase2OutCount := by
  decide

/-- Claim C1 as amended: for every successful `get_all_items` fetch the
returned list length equals the phase-1 reported count (the allocated buffer
size); the count reported by the phase-2 fill call is not re-read, so every
buffer slot is decoded regardless of the phase-2 count. -/
theorem claim_C1_amended (o : FetchOracle) (handle : Nat)
    (items : List SteamItemDetails)
    (hle : o.phase2Records.length ≤ o.phase1Count)
    (hok : get_result_items o handle = .ok items) :
    items.length = o.phase1Count := by
  by_cases h1 : o.phase1Ok
  · by_cases h2 : o.phase2Ok
    · simp [get_result_items, get_result_items_tr, h1, h2] at hok
      rw [← hok]
      simp
      omega
    · simp [get_result_items, get_result_items_tr, h1, h2] at hok
  · simp [get_result_items, get_result_items_tr, h1] at hok

/-- Witness for the amended C1: on the mismatch run the returned list has the
phase-1 length 2. -/
theorem claim_C1_amended_witness :
    ([⟨⟨100⟩, ⟨5⟩, 2, 0⟩, ⟨⟨0⟩, ⟨0⟩, 0, 0⟩] : List SteamItemDetails).length
      = fetchMismatchRun.phase1Count :=
  claim_C1_amended fetchMismatchRun 7 _ (by decide) (by decide)

/-- The fetch trace contains only fill calls — in particular no polls, sleeps
or destroys. -/
lemma fetch_tr_calls (f : FetchOracle) (handle : Nat) :
    (get_result_items_tr f handle).2
        = [.getResultItems handle true, .getResultItems handle false]
    ∨ (get_result_items_tr f handle).2 = [.getResultItems handle true] := by
  by_cases h1 : f.phase1Ok <;> by_cases h2 : f.phase2Ok <;>
    simp [get_result_items_tr, h1, h2]

/-- No poll calls occur in a fetch trace. -/
lemma pollCount_fetch_tr (f : FetchOracle) (handle : Nat) :
    pollCount (get_result_items_tr f handle).2 = 0 := by
  rcases fetch_tr_calls f handle with h | h <;> rw [pollCount, h] <;> rfl

/-- No destroy calls occur in a fetch trace. -/
lemma destroyCount_fetch_tr (f : FetchOracle) (handle h' : Nat) :
    destroyCount (get_result_items_tr f handle).2 h' = 0 := by
  rcases fetch_tr_calls f handle with h | h <;> rw [destroyCount, h] <;> simp

/-- The poll loop performs at most `fuel` poll calls. -/
lemma pollCount_waitLoop (o : InventoryOracle) (handle : Nat) :
    ∀ fuel i, pollCount (waitLoop o handle fuel i).2 ≤ fuel := by
  intro fuel
  induction fuel with
  | zero => intro i; simp [waitLoop, pollCount]
  | succ n ih =>
    intro i
    by_cases hs : o.status i = k_EResultOK
    · have h0 := pollCount_fetch_tr o.fetch handle
      rw [pollCount] at h0 ⊢
      rw [List.length_eq_zero] at h0
      simp [waitLoop, hs, List.filter_cons, h0]
    · have h0 := ih (i + 1)
      rw [pollCount] at h0 ⊢
      simp only [waitLoop, hs, if_neg, ite_false, List.filter_cons]
      simp
      omega

/-- No destroy calls occur anywhere in the poll loop's trace. -/
lemma destroyCount_waitLoop (o : InventoryOracle) (handle h' : Nat) :
    ∀ fuel i, destroyCount (waitLoop o handle fuel i).2 h' = 0 := by
  intro fuel
  induction fuel with
  | zero => intro i; simp [waitLoop, destroyCount]
  | succ n ih =>
    intro i
    by_cases hs : o.status i = k_EResultOK
    · have h0 := destroyCount_fetch_tr o.fetch handle h'
      rw [destroyCount] at h0 ⊢
      rw [List.length_eq_zero] at h0
      simp [waitLoop, hs, List.filter_cons, h0]
    · have h0 := ih (i + 1)
      rw [destroyCount] at h0 ⊢
      rw [List.length_eq_zero] at h0
      simp [waitLoop, hs, List.filter_cons, h0]

/-- If no attempt in the window reports OK, the loop exhausts its fuel with a
`Timeout` and a trace of polls each followed by a 100 ms sleep. -/
lemma waitLoop_timeout (o : InventoryOracle) (handle : Nat) :
    ∀ fuel i, (∀ j, j < fuel → o.status (i + j) ≠ k_EResultOK) →
      waitLoop o handle fuel i = (.error .Timeout, pollSleeps handle fuel) := by
  intro fuel
  induction fuel with
  | zero => intro i _; simp [waitLoop, pollSleeps]
  | succ n ih =>
    intro i hall
    have h0 : o.status i ≠ k_EResultOK := by
      have := hall 0 (Nat.succ_pos n); simpa using this
    have hrest : ∀ j, j < n → o.status (i + 1 + j) ≠ k_EResultOK := by
      intro j hj
      have heq : i + 1 + j = i + (j + 1) := by omega
      rw [heq]
      exact hall (j + 1) (by omega)
    simp [waitLoop, h0, pollSleeps, ih (i + 1) hrest]

/-- If the first OK status in the window is at attempt `i + k`, the loop polls
`k + 1` times (with a 100 ms sleep after each of the first `k`) and proceeds
directly to the fetch. -/
lemma waitLoop_found (o : InventoryOracle) (handle : Nat) :
    ∀ fuel k i, k < fuel → o.status (i + k) = k_EResultOK →
      (∀ j, j < k → o.status (i + j) ≠ k_EResultOK) →
      waitLoop o handle fuel i =
        ((get_result_items_tr o.fetch handle).1,
          pollSleeps handle k
            ++ .getResultStatus handle :: (get_result_items_tr o.fetch handle).2) := by
  intro fuel
  induction fuel with
  | zero => intro k i hk; exact absurd hk (Nat.not_lt_zero k)
  | succ n ih =>
    intro k i hk hok hmin
    cases k with
    | zero =>
      have h0 : o.status i = k_EResultOK := by simpa using hok
      simp [waitLoop, h0, pollSleeps]
    | succ m =>
      have h0 : o.status i ≠ k_EResultOK := by
        have := hmin 0 (Nat.succ_pos m); simpa using this
      have hok' : o.status (i + 1 + m) = k_EResultOK := by
        have heq : i + 1 + m = i + (m + 1) := by omega
        rw [heq]; exact hok
      have hmin' : ∀ j, j < m → o.status (i + 1 + j) ≠ k_EResultOK := by
        intro j hj
        have heq : i + 1 + j = i + (j + 1) := by omega
        rw [heq]; exact hmin (j + 1) (by omega)
      simp [waitLoop, h0, pollSleeps, ih m (i + 1) (by omega) hok' hmin']

/-- A poll/sleep trace contains no fill calls. -/
lemma fetchCount_pollSleeps (handle n : Nat) :
    fetchCount (pollSleeps handle n) = 0 := by
  induction n with
  | zero => rfl
  | succ m ih => simpa [pollSleeps, fetchCount] using ih

/-- Claim C4: the readiness wait polls at most 100 times with a fixed 100 ms
sleep between attempts; if all 100 attempts miss OK it returns `Timeout` and
no fill call is ever made, and if attempt `k` is the first to report OK it
proceeds immediately (no further sleep) to `get_result_items`. -/
theorem claim_C4 (o : InventoryOracle) (handle : Nat) :
    pollCount (wait_for_result_and_get_items o handle).2 ≤ 100
  ∧ ((∀ i, i < 100 → o.status i ≠ k_EResultOK) →
      wait_for_result_and_get_items o handle = (.error .Timeout, pollSleeps handle 100)
      ∧ fetchCount (wait_for_result_and_get_items o handle).2 = 0)
  ∧ (∀ k, k < 100 → o.status k = k_EResultOK →
      (∀ j, j < k → o.status j ≠ k_EResultOK) →
      wait_for_result_and_get_items o handle =
        ((get_result_items_tr o.fetch handle).1,
          pollSleeps handle k
            ++ .getResultStatus handle :: (get_result_items_tr o.fetch handle).2)) := by
  refine ⟨pollCount_waitLoop o handle 100 0, fun hall => ?_, fun k hk hok hmin => ?_⟩
  · have h100 := waitLoop_timeout o handle 100 0
      (by intro j hj; simpa using hall j hj)
    refine ⟨h100, ?_⟩
    rw [wait_for_result_and_get_items, h100]
    exact fetchCount_pollSleeps handle 100
  · exact waitLoop_found o handle 100 k 0 hk (by simpa using hok)
      (by intro j hj; simpa using hmin j hj)

/-- Witness for C4: attempt 0 reports pending and attempt 1 reports OK, so the
run polls twice, sleeps once, and proceeds to the fetch. -/
theorem claim_C4_witness :
    wait_for_result_and_get_items twoPollRun 7 =
      ((get_result_items_tr twoPollRun.fetch 7).1,
        pollSleeps 7 1
          ++ .getResultStatus 7 :: (get_result_items_tr twoPollRun.fetch 7).2) :=
  (claim_C4 twoPollRun 7).2.2 1 (by decide) (by decide) (by decide)

/-- No destroy calls occur in the wait-and-fetch trace. -/
lemma destroyCount_wait (o : InventoryOracle) (handle h' : Nat) :
    destroyCount (wait_for_result_and_get_items o handle).2 h' = 0 :=
  destroyCount_waitLoop o handle h' 100 0

/-- Counterexample for C2: handle 7 is obtained and its status is OK at once,
but fill phase 1 fails — `get_all_items` returns the error without ever
issuing the destroy call for the obtained handle. -/
theorem claim_C2_counterexample :
    (get_all_items leakRun).1 = .error .GetResultItemsFailed
  ∧ destroyCount (get_all_items leakRun).2 leakRun.startHandle = 0 := by decide

/-- Claim C2 as amended: `get_all_items` issues the destroy call exactly once
when the whole call succeeds, and issues no destroy call on any failure
branch — after the `?` early returns, a handle obtained before a timeout or a
fill failure is simply leaked by `get_all_items`. -/
theorem claim_C2_amended (o : InventoryOracle) :
    (∀ items, (get_all_items o).1 = .ok items →
      destroyCount (get_all_items o).2 o.startHandle = 1)
  ∧ (∀ e, (get_all_items o).1 = .error e →
      destroyCount (get_all_items o).2 o.startHandle = 0) := by
  by_cases hs : o.startOk
  · rcases hw : (wait_for_result_and_get_items o o.startHandle).1 with e | its
    · have hga : get_all_items o
          = (.error e,
              .getAllItemsCall :: (wait_for_result_and_get_items o o.startHandle).2) := by
        simp [get_all_items, hs, hw]
      constructor
      · intro items hok; rw [hga] at hok; exact absurd hok (by simp)
      · intro e' _
        rw [hga]
        have h0 := destroyCount_wait o o.startHandle o.startHandle
        rw [destroyCount, List.length_eq_zero] at h0
        rw [destroyCount]
        simp [List.filter_cons, h0]
    · have hga : get_all_items o
          = (.ok its,
              .getAllItemsCall :: (wait_for_result_and_get_items o o.startHandle).2
                ++ [.destroyResult o.startHandle]) := by
        simp [get_all_items, hs, hw]
      constructor
      · intro items _
        rw [hga]
        have h0 := destroyCount_wait o o.startHandle o.startHandle
        rw [destroyCount, List.length_eq_zero] at h0
        rw [destroyCount]
        simp [List.filter_cons, List.filter_append, h0]
      · intro e he; rw [hga] at he; exact absurd he (by simp)
  · have hga : get_all_items o = (.error .OperationFailed, [.getAllItemsCall]) := by
      simp [get_all_items, hs]
    constructor
    · intro items hok; rw [hga] at hok; exact absurd hok (by simp)
    · intro e _
      rw [hga, destroyCount]
      simp

/-- Witness for the amended C2: on a fully successful run the destroy call is
issued exactly once for the obtained handle. -/
theorem claim_C2_amended_witness :
    destroyCount (get_all_items successRun).2 successRun.startHandle = 1 :=
  (claim_C2_amended successRun).1 [⟨⟨100⟩, ⟨5⟩, 2, 0⟩] (by decide)

/-- Claim C3 (registry modelled from the spec): a handle tracked as pending
and never explicitly released is destroyed exactly once by teardown
(`release_all`), teardown twice changes nothing — in particular it issues no
second destroy call — and teardown empties the pending set. -/
theorem claim_C3 (r : HandleRegistry) (h : Nat) (hnew : h ∉ r.pending) :
    ((r.track h).release_all.destroyed.count h = r.destroyed.count h + 1)
  ∧ ((r.track h).release_all.release_all = (r.track h).release_all)
  ∧ (r.track h).release_all.pending = [] := by
  have htrack : (r.track h).pending = h :: r.pending := by
    simp [HandleRegistry.track, hnew]
  refine ⟨?_, ?_, rfl⟩
  · show ((r.track h).destroyed ++ (r.track h).pending).count h
        = r.destroyed.count h + 1
    have hd : (r.track h).destroyed = r.destroyed := by
      simp [HandleRegistry.track, hnew]
    rw [htrack, hd, List.count_append, List.count_cons_self,
      List.count_eq_zero_of_not_mem hnew]
  · simp [HandleRegistry.release_all]

/-- Witness for C3: tracking handle 7 in a fresh registry and tearing down
issues exactly one destroy call for it. -/
theorem claim_C3_witness :
    ((HandleRegistry.mk [] []).track 7).release_all.destroyed.count 7
      = (HandleRegistry.mk [] []).destroyed.count 7 + 1 :=
  (claim_C3 ⟨[], []⟩ 7 (by decide)).1
